import Mathlib

/-!
Shallow embedding of the baler compression pipeline
(src/baler/modules/helper.py and src/baler/modules/training.py).

Machine reals are embedded as exact rationals.  A possibly non-finite
training loss is embedded as `Training.Val` (a rational or NaN).  Python
exceptions are embedded as `PyError` values in `Except` codomains, or as
an `err` field when the observable state at the moment of the raise
matters.  Functions of this repository that live outside the two files
above (modules/data_processing.py, modules/utils.py, the models module
and the baler.py entry point) are modelled from the specification; each
such definition carries a doc comment beginning "Modelled from the spec".
-/

/-- Python exception outcomes distinguished by the embedding. -/
inductive PyError
  | nameError
  | archMismatch
  | shapeError
  | indexError
  deriving DecidableEq, Repr

/-- A tabular dataset: ordered named numeric columns (spec section 3). -/
abbrev Dataset := List (String × List ℚ)

/-- The caller's configuration object (helper.py:68-89 lists its fields).
The field `cleared_col_names` is not set by the constructor;
helper.process and helper.compress assign it dynamically
(helper.py:128, 130 and 168).  The field `latent_space_size` is read by
training.train (training.py:72) after being attached outside src/. -/
structure Config where
  input_path : String
  compression_ratio : ℚ
  epochs : ℕ
  early_stopping : Bool
  lr_scheduler : Bool
  patience : ℕ
  min_delta : ℚ
  model_name : String
  custom_norm : Bool
  l1 : Bool
  reg_param : ℚ
  RHO : ℚ
  lr : ℚ
  batch_size : ℕ
  save_as_root : Bool
  test_size : ℚ
  cleared_col_names : Option (List String) := none
  latent_space_size : ℕ := 0
  deriving DecidableEq, Repr

namespace DataProcessing

/-- Minimum of a column (0 for an empty column). -/
def colMin : List ℚ → ℚ
  | [] => 0
  | x :: xs => xs.foldl min x

/-- Maximum of a column (0 for an empty column). -/
def colMax : List ℚ → ℚ
  | [] => 0
  | x :: xs => xs.foldl max x

/-- Modelled from the spec: `data_processing.normalize` is not under src/.
Spec 4.1 scales a column value to `(value - true_min) / range` and sends a
degenerate (zero-range) column to the constant 0.  Its call site
(`helper.normalize`, helper.py:118-123) hands it only the column and the
config through `numpy.apply_along_axis(axis=0)`, so `true_min` and `range`
are computed from the received column itself (default, non-custom_norm
path). -/
def normalize (col : List ℚ) : List ℚ :=
  col.map (fun v =>
    if 0 < colMax col - colMin col then (v - colMin col) / (colMax col - colMin col) else 0)

/-- Modelled from the spec: `data_processing.find_minmax` is not under src/.
Spec section 3: NormalizationParams hold, for each column,
`(true_min, range)` with `range = max - min`. -/
def find_minmax (df : Dataset) : List (ℚ × ℚ) :=
  df.map (fun c => (colMin c.2, colMax c.2 - colMin c.2))

/-- Modelled from the spec: `data_processing.get_columns` is not under src/.
Spec section 3: the dataset's column names, unique and order-preserving. -/
def get_columns (df : Dataset) : List String := df.map Prod.fst

/-- Modelled from the spec: `data_processing.renormalize_func` is not under
src/.  Spec 4.1 invert: `value = value' * range + true_min`, columnwise. -/
def renormalize_func : List (List ℚ) → List ℚ → List ℚ → List (List ℚ)
  | col :: cols, mn :: mins, rg :: rgs =>
      col.map (fun v => v * rg + mn) :: renormalize_func cols mins rgs
  | _, _, _ => []

/-- Number of rows of a column-major dataset. -/
def numRows (df : Dataset) : ℕ := ((df.headD ("", [])).2).length

/-- Modelled from the spec: `data_processing.split` is not under src/.
Spec 4.2 requires a deterministic row partition with
`|test| = floor(test_size * n)` (the spec fixes floor-or-round; floor is
used here); the final rows form the test partition. -/
def split (df : Dataset) (test_size : ℚ) : Dataset × Dataset :=
  let n := numRows df
  let k := (⌊test_size * (n : ℚ)⌋).toNat
  (df.map (fun c => (c.1, c.2.take (n - k))), df.map (fun c => (c.1, c.2.drop (n - k))))

/-- The persisted weight blob read with `torch.load` in decompress: an
ordered dict of named weight tensors (each flattened to its leading
length), together with the latent width its encoder shapes determine. -/
structure StoredModel where
  dict : List (String × List ℚ)
  enc_z_dim : ℕ
  deriving DecidableEq, Repr

/-- A constructed model: architecture fixed at construction (spec section 3). -/
structure Model where
  n_features : ℕ
  z_dim : ℕ
  deriving DecidableEq, Repr

/-- Modelled from the spec: the model's opaque `decode` capability; only
its output width (`n_features`) is specified (spec 4.6), so the emitted
values are an arbitrary function of the row. -/
def Model.decode (m : Model) (row : List ℚ) : List ℚ :=
  List.replicate m.n_features (row.headD 0)

/-- Modelled from the spec: the model's opaque `encode` capability; only
its output width (`z_dim`) is specified (spec 4.6), so the emitted values
are an arbitrary function of the row. -/
def Model.encode (m : Model) (row : List ℚ) : List ℚ :=
  List.replicate m.z_dim (row.headD 0)

/-- Feature width implied by the stored weights: the length of the value
at the last key, the convention decompress relies on (helper.py:194). -/
def stored_n_features (s : StoredModel) : ℕ := ((s.dict.getLastD ("", [])).2).length

/-- Modelled from the spec: `data_processing.load_model` is not under src/.
Spec 4.7: loading fails (ArchitectureMismatchError) when the requested
`(n_features, z_dim)` cannot be reconciled with the stored weight shapes;
the stored shapes determine the architecture
`(stored_n_features s, s.enc_z_dim)`. -/
def load_model (s : StoredModel) (n_features z_dim : ℕ) : Except PyError Model :=
  if n_features = stored_n_features s ∧ z_dim = s.enc_z_dim then
    Except.ok ⟨n_features, z_dim⟩
  else
    Except.error PyError.archMismatch

end DataProcessing

namespace Helper

/-- helper.normalize (helper.py:118-123): columnwise application of
`data_processing.normalize` through `numpy.apply_along_axis(axis=0)`. -/
def normalize (df : Dataset) : Dataset :=
  df.map (fun c => (c.1, DataProcessing.normalize c.2))

/-- Everything helper.process returns, together with the caller's config
object as it stands after the call (the source mutates it in place). -/
structure ProcessResult where
  train_set : Dataset
  test_set : Dataset
  number_of_columns : ℕ
  normalization_features : List (ℚ × ℚ)
  config : Config
  deriving DecidableEq, Repr

/-- helper.process (helper.py:126-136).  The input dataframe stands for
`load_data(data_path, config)`.  Lines 128 and 130 both assign
`config.cleared_col_names`; the normalization parameters are computed by
`find_minmax` on the derive-time data and returned, while the dataframe is
normalized by `normalize(df, config)` and split. -/
def process (df : Dataset) (config : Config) : ProcessResult :=
  let config := { config with cleared_col_names := some (DataProcessing.get_columns df) }
  let normalization_features := DataProcessing.find_minmax df
  let config := { config with cleared_col_names := some (DataProcessing.get_columns df) }
  let number_of_columns := (DataProcessing.get_columns df).length
  let dfn := normalize df
  let st := DataProcessing.split dfn config.test_size
  ⟨st.1, st.2, number_of_columns, normalization_features, config⟩

/-- helper.renormalize (helper.py:139-140). -/
def renormalize (data : List (List ℚ)) (true_min_list feature_range_list : List ℚ) :
    List (List ℚ) :=
  DataProcessing.renormalize_func data true_min_list feature_range_list

/-- The latent sizing computed inside compress (helper.py:170):
`int(number_of_columns // config.compression_ratio)`, Python floor
division of a positive int by a positive float. -/
def compress_latent_space_size (number_of_columns : ℕ) (compression_ratio : ℚ) : ℤ :=
  ⌊(number_of_columns : ℚ) / compression_ratio⌋

/-- The value the local `data` holds after helper.py:172: compress
re-normalizes the compress-time input with `normalize(data, config)`. -/
def compress_normalized_data (data : Dataset) : Dataset := normalize data

/-- Observable outcome of helper.compress: the encoded matrix (or the
exception), the `data_before` array, and the caller's config object after
the call. -/
structure CompressOutcome where
  result : Except PyError (List (List ℚ))
  data_before : Dataset
  config : Config
  deriving Repr

/-- Row `i` of a column-major dataset (the data tensor handed to encode). -/
def rowAt (df : Dataset) (i : ℕ) : List ℚ := df.map (fun c => c.2.getD i 0)

/-- All rows of a column-major dataset. -/
def rowsOf (df : Dataset) : List (List ℚ) :=
  (List.range (DataProcessing.numRows df)).map (rowAt df)

/-- helper.compress (helper.py:165-185).  `data` stands for the dataset
loaded from `input_path` and `s` for the weight file at `model_path`.
Line 168 assigns `config.cleared_col_names`; line 170 sizes the latent
space from the compress-time column count and the configured ratio;
line 172 re-normalizes the compress-time data; the model is then loaded
with that `(n_features, z_dim)` and `encode` is applied to the rows. -/
def compress (data : Dataset) (s : DataProcessing.StoredModel) (config : Config) :
    CompressOutcome :=
  let config := { config with cleared_col_names := some (DataProcessing.get_columns data) }
  let number_of_columns := (DataProcessing.get_columns data).length
  let latent_space_size := compress_latent_space_size number_of_columns config.compression_ratio
  let data_before := data
  let dn := compress_normalized_data data
  match DataProcessing.load_model s number_of_columns latent_space_size.toNat with
  | Except.error e => ⟨Except.error e, data_before, config⟩
  | Except.ok model => ⟨Except.ok ((rowsOf dn).map model.encode), data_before, config⟩

/-- The latent width decompress reads from its input (helper.py:192):
`len(data[0])`; an empty input raises IndexError there. -/
def decompress_latent_space_size (data : List (List ℚ)) : ℕ := (data.headD []).length

/-- The feature width decompress reads from the weight file (helper.py:194):
`len(modelDict[list(modelDict.keys())[-1]])`. -/
def decompress_number_of_columns (s : DataProcessing.StoredModel) : ℕ :=
  DataProcessing.stored_n_features s

/-- helper.decompress (helper.py:188-207).  `data` stands for the latent
matrix loaded from `input_path` and `s` for the weight file at
`model_path`.  The model is instantiated with `z_dim = len(data[0])` and
`n_features` taken from the last stored weight entry, then `decode` is
applied to the rows; the config is consulted neither for sizing nor for
the ratio. -/
def decompress (s : DataProcessing.StoredModel) (data : List (List ℚ)) (config : Config) :
    Except PyError (List (List ℚ)) :=
  match data with
  | [] => Except.error PyError.indexError
  | _ :: _ =>
    let latent_space_size := decompress_latent_space_size data
    let number_of_columns := decompress_number_of_columns s
    match DataProcessing.load_model s number_of_columns latent_space_size with
    | Except.error e => Except.error e
    | Except.ok model => Except.ok (data.map model.decode)

end Helper

namespace Training

/-- A training-loss value: a finite rational, or the non-finite float
(NaN or infinity) a diverged batch produces. -/
inductive Val
  | fin (q : ℚ)
  | nan
  deriving DecidableEq, Repr

/-- Addition on loss values: a non-finite summand contaminates the sum,
exactly as float accumulation does. -/
def Val.add : Val → Val → Val
  | Val.fin a, Val.fin b => Val.fin (a + b)
  | _, _ => Val.nan

/-- Division of an accumulated loss by a batch count. -/
def Val.divNat : Val → ℕ → Val
  | Val.fin a, n => Val.fin (a / (n : ℚ))
  | Val.nan, _ => Val.nan

/-- Model weights; their content is opaque to the training loop. -/
abbrev Params := List ℚ

/-- The opaque capability
`model.loss(model_children, true_data, reconstructed_data, reg_param)`:
a function of the current weights, the batch and the regularization
weight (spec section 3 keeps the model external; the forward pass
`reconstructions = model(inputs)` is folded into it). -/
abbrev LossFn := Params → List ℚ → ℚ → Val

/-- The per-batch loss computed in fit (training.py:24-28). -/
def fitBatchLoss (lossOf : LossFn) (p : Params) (b : List ℚ) (regular_param : ℚ) : Val :=
  lossOf p b regular_param

/-- The per-batch loss computed in validate (training.py:52-56). -/
def validateBatchLoss (lossOf : LossFn) (p : Params) (b : List ℚ) (reg_param : ℚ) : Val :=
  lossOf p b reg_param

/-- training.fit (training.py:10-38): for each batch, compute the loss,
take a gradient step (`optStep` embeds `loss.backward(); optimizer.step()`)
and add the loss to `running_loss`; return the weights and the mean loss
over batches.  The source contains no finiteness check and no raise
statement: the `Except` codomain records that it always returns normally. -/
def fit (lossOf : LossFn) (optStep : Params → List ℚ → Params) (regular_param : ℚ)
    (p0 : Params) (batches : List (List ℚ)) : Except PyError (Params × Val) :=
  let final := batches.foldl
    (fun s b => (optStep s.1 b, Val.add s.2 (fitBatchLoss lossOf s.1 b regular_param)))
    (p0, Val.fin 0)
  Except.ok (final.1, Val.divNat final.2 batches.length)

/-- training.validate (training.py:41-62): the same loss computation over
the validation batches, under `model.eval()` and `torch.no_grad()` and
with no optimizer in scope, so the weights are only read and threaded
through unchanged. -/
def validate (lossOf : LossFn) (reg_param : ℚ) (p0 : Params) (batches : List (List ℚ)) :
    Params × Val :=
  let final := batches.foldl
    (fun s b => (s.1, Val.add s.2 (validateBatchLoss lossOf s.1 b reg_param)))
    (p0, Val.fin 0)
  (final.1, Val.divNat final.2 batches.length)

/-- Modelled from the spec: `utils.EarlyStopping` is not under src/.
Spec 4.4: state starts as `(best_loss = infinity, counter = 0)`; an
observation improving on `best_loss` by more than `min_delta` resets the
counter, any other observation increments it, and a counter reaching
`patience` signals stop; the stopped state is terminal. -/
structure EarlyStopping where
  best_loss : Option ℚ
  counter : ℕ
  early_stop : Bool
  deriving DecidableEq, Repr

/-- Initial early-stopping state (`best_loss = infinity`, encoded `none`). -/
def EarlyStopping.start : EarlyStopping := ⟨none, 0, false⟩

/-- One observation of a validation loss (spec 4.4). -/
def EarlyStopping.observe (patience : ℕ) (min_delta : ℚ) (s : EarlyStopping) (v : ℚ) :
    EarlyStopping :=
  if s.early_stop then s
  else
    match s.best_loss with
    | none => ⟨some v, 0, false⟩
    | some b =>
        if min_delta < b - v then ⟨some v, 0, false⟩
        else
          let c := s.counter + 1
          ⟨some b, c, decide (patience ≤ c)⟩

/-- Feed a whole loss sequence to the policy. -/
def EarlyStopping.run (patience : ℕ) (min_delta : ℚ) (losses : List ℚ) : EarlyStopping :=
  losses.foldl (EarlyStopping.observe patience min_delta) EarlyStopping.start

/-- Observable outcome of training.train: the exception the call ends
with (if any), the two per-epoch loss lists at that moment, and how many
validation losses the early-stopping policy observed. -/
structure TrainOutcome where
  err : Option PyError
  train_loss : List ℚ
  val_loss : List ℚ
  es_calls : ℕ
  deriving DecidableEq, Repr

/-- The epoch loop of training.train (training.py:113-159).  `tl e` and
`vl e` stand for the epoch-`e` results of `fit` and `validate`.  Each
iteration appends its two losses (lines 125 and 132) and then executes
`mse_loss_fit.append(mse_loss_fit1)` (line 133); `mse_loss_fit1` is not
defined anywhere in the module, so this raises NameError before the
lr-scheduler and early-stopping checks (lines 135-140) can run.  When the
loop body never runs (`epochs = 0`), control reaches the return statement
on line 159, whose `model_from_fit` is also undefined: NameError again. -/
def trainLoop (tl vl : ℕ → ℚ) :
    ℕ → ℕ → List ℚ → List ℚ → ℕ → TrainOutcome
  | _, 0, trainLog, valLog, esCalls =>
      ⟨some PyError.nameError, trainLog, valLog, esCalls⟩
  | e, _ + 1, trainLog, valLog, esCalls =>
      let trainLog := trainLog ++ [tl e]
      let valLog := valLog ++ [vl e]
      ⟨some PyError.nameError, trainLog, valLog, esCalls⟩

/-- training.train (training.py:65-159), observable behavior. -/
def train (config : Config) (tl vl : ℕ → ℚ) : TrainOutcome :=
  trainLoop tl vl 0 config.epochs [] [] 0

end Training

namespace Spec

/-- Modelled from the spec: the derive-time latent sizing (the entry
point that sizes the model before training is not under src/).  Spec 4.6:
`latent_width(n_features, compression_ratio)
  = floor(n_features / compression_ratio)`. -/
def latent_width (n_features : ℕ) (compression_ratio : ℚ) : ℤ :=
  ⌊(n_features : ℚ) / compression_ratio⌋

/-- Modelled from the spec: Normalizer.apply on one column under stored
params `(true_min, range)` (spec 4.1). -/
def apply (p : ℚ × ℚ) (col : List ℚ) : List ℚ :=
  col.map (fun v => if 0 < p.2 then (v - p.1) / p.2 else 0)

end Spec

/-! Shared facts about column minima and maxima. -/

theorem foldl_min_le_seed (l : List ℚ) : ∀ x : ℚ, l.foldl min x ≤ x := by
  induction l with
  | nil => intro x; exact le_refl x
  | cons y ys ih => intro x; exact le_trans (ih (min x y)) (min_le_left x y)

theorem foldl_min_le_mem (l : List ℚ) : ∀ x v : ℚ, v ∈ l → l.foldl min x ≤ v := by
  induction l with
  | nil => intro x v hv; cases hv
  | cons y ys ih =>
      intro x v hv
      cases hv with
      | head => exact le_trans (foldl_min_le_seed ys (min x y)) (min_le_right x y)
      | tail _ h => exact ih (min x y) v h

theorem seed_le_foldl_max (l : List ℚ) : ∀ x : ℚ, x ≤ l.foldl max x := by
  induction l with
  | nil => intro x; exact le_refl x
  | cons y ys ih => intro x; exact le_trans (le_max_left x y) (ih (max x y))

theorem mem_le_foldl_max (l : List ℚ) : ∀ x v : ℚ, v ∈ l → v ≤ l.foldl max x := by
  induction l with
  | nil => intro x v hv; cases hv
  | cons y ys ih =>
      intro x v hv
      cases hv with
      | head => exact le_trans (le_max_right x y) (seed_le_foldl_max ys (max x y))
      | tail _ h => exact ih (max x y) v h

theorem colMin_le_of_mem {col : List ℚ} {v : ℚ} (h : v ∈ col) :
    DataProcessing.colMin col ≤ v := by
  cases col with
  | nil => cases h
  | cons x xs =>
      cases h with
      | head => exact foldl_min_le_seed xs v
      | tail _ h => exact foldl_min_le_mem xs x v h

theorem le_colMax_of_mem {col : List ℚ} {v : ℚ} (h : v ∈ col) :
    v ≤ DataProcessing.colMax col := by
  cases col with
  | nil => cases h
  | cons x xs =>
      cases h with
      | head => exact seed_le_foldl_max xs v
      | tail _ h => exact mem_le_foldl_max xs x v h

/-- A member of a zero-range column equals the column minimum. -/
theorem eq_colMin_of_range_zero {col : List ℚ} {v : ℚ} (h : v ∈ col)
    (hr : DataProcessing.colMax col - DataProcessing.colMin col = 0) :
    v = DataProcessing.colMin col := by
  have h1 := colMin_le_of_mem h
  have h2 := le_colMax_of_mem h
  linarith

/-- Pointwise inversion of the per-column scaling: scaling a member and
then unscaling with the same minimum and range is the identity, the
degenerate branch included. -/
theorem normalize_value_roundtrip {col : List ℚ} {v : ℚ} (h : v ∈ col) :
    (if 0 < DataProcessing.colMax col - DataProcessing.colMin col then
        (v - DataProcessing.colMin col) /
          (DataProcessing.colMax col - DataProcessing.colMin col)
      else 0) *
        (DataProcessing.colMax col - DataProcessing.colMin col) +
      DataProcessing.colMin col = v := by
  by_cases hr : 0 < DataProcessing.colMax col - DataProcessing.colMin col
  · rw [if_pos hr, div_mul_cancel₀ _ (ne_of_gt hr)]
    ring
  · have h0 : DataProcessing.colMax col - DataProcessing.colMin col = 0 := by
      have h1 := colMin_le_of_mem h
      have h2 := le_colMax_of_mem h
      have := not_lt.mp hr
      linarith
    rw [if_neg hr, zero_mul, zero_add, eq_colMin_of_range_zero h h0]

/-- Columnwise inversion: unscaling the normalized column with the same
minimum and range restores it. -/
theorem normalize_col_roundtrip (col : List ℚ) :
    (DataProcessing.normalize col).map
      (fun v => v * (DataProcessing.colMax col - DataProcessing.colMin col) +
        DataProcessing.colMin col) = col := by
  unfold DataProcessing.normalize
  rw [List.map_map]
  have hpt : ∀ v ∈ col,
      ((fun v => v * (DataProcessing.colMax col - DataProcessing.colMin col) +
          DataProcessing.colMin col) ∘
        (fun v =>
          if 0 < DataProcessing.colMax col - DataProcessing.colMin col then
            (v - DataProcessing.colMin col) /
              (DataProcessing.colMax col - DataProcessing.colMin col)
          else 0)) v = v := by
    intro v hv
    exact normalize_value_roundtrip hv
  calc col.map _ = col.map id := List.map_congr_left hpt
    _ = col := List.map_id col

/-! Concrete objects used to evaluate the pipeline at specific inputs. -/

/-- A configuration with exactly the default constructor values of
helper.create_default_config (helper.py:68-89). -/
def cfgDefault : Config :=
  { input_path := "data/first/george.pickle"
    compression_ratio := 2
    epochs := 2
    early_stopping := true
    lr_scheduler := false
    patience := 100
    min_delta := 0
    model_name := "george_SAE"
    custom_norm := false
    l1 := true
    reg_param := 1 / 1000
    RHO := 1 / 20
    lr := 1 / 1000
    batch_size := 512
    save_as_root := true
    test_size := 3 / 20 }

/-- The default configuration with early stopping set to trigger
immediately on any plateau, over five epochs. -/
def cfgEager : Config :=
  { cfgDefault with epochs := 5, early_stopping := true, patience := 0, min_delta := 0 }

/-- A two-column dataset with one degenerate (constant) column. -/
def sampleDataset : Dataset := [("a", [2, 2]), ("b", [0, 1])]

/-- A stored model whose weight shapes imply `n_features = 4`, `z_dim = 2`. -/
def smWide : DataProcessing.StoredModel :=
  ⟨[("enc.weight", [1, 2]), ("dec.bias", [0, 0, 0, 0])], 2⟩

/-- A stored model whose weight shapes imply `n_features = 3`, `z_dim = 2`. -/
def smNarrow : DataProcessing.StoredModel := ⟨[("w", [1, 2, 3])], 2⟩

/-- A stored model whose weight shapes imply `n_features = 2`, `z_dim = 1`. -/
def smTiny : DataProcessing.StoredModel := ⟨[("w", [1, 2])], 1⟩

/-- C1 counterexample: derive-time processing of the dataset with column
a = [0, 2] stores the parameters (0, 2), but compressing a dataset with
column a = [0, 4] normalizes it to [0, 1] — recomputed from the
compress-time data — whereas applying the stored parameters verbatim
would give [0, 2]. -/
theorem c1_compress_ignores_stored_params_cex :
    (Helper.process [("a", [(0:ℚ), 2])] cfgDefault).normalization_features
      = [((0:ℚ), 2)] ∧
    Helper.compress_normalized_data [("a", [(0:ℚ), 4])] = [("a", [(0:ℚ), 1])] ∧
    Spec.apply ((0:ℚ), 2) [(0:ℚ), 4] = [(0:ℚ), 2] ∧
    Helper.compress_normalized_data [("a", [(0:ℚ), 4])]
      ≠ [("a", Spec.apply ((0:ℚ), 2) [(0:ℚ), 4])] := by
  have h0 : (Helper.process [("a", [(0:ℚ), 2])] cfgDefault).normalization_features
      = [((0:ℚ), 2)] := by
    show DataProcessing.find_minmax [("a", [(0:ℚ), 2])] = [((0:ℚ), 2)]
    norm_num [DataProcessing.find_minmax, DataProcessing.colMin, DataProcessing.colMax,
      List.foldl]
  have h1 : Helper.compress_normalized_data [("a", [(0:ℚ), 4])]
      = [("a", [(0:ℚ), 1])] := by
    norm_num [Helper.compress_normalized_data, Helper.normalize, DataProcessing.normalize,
      DataProcessing.colMin, DataProcessing.colMax, List.foldl]
  have h2 : Spec.apply ((0:ℚ), 2) [(0:ℚ), 4] = [(0:ℚ), 2] := by
    norm_num [Spec.apply]
  refine ⟨h0, h1, h2, ?_⟩
  rw [h1, h2]
  intro h
  have h3 := congrArg (fun l : Dataset => ((l.headD ("", [])).2).getD 1 0) h
  simp only [List.headD_cons, List.getD_cons_succ, List.getD_cons_zero] at h3
  exact absurd h3 (by norm_num)

/-- C1 amended: the normalization performed inside compress applies to
each column of the compress-time input the parameters fitted from that
very column; the stored derive-time parameters are not consulted. -/
theorem c1_compress_normalizes_from_compress_time_data (data : Dataset) :
    Helper.compress_normalized_data data
      = data.map (fun c =>
          (c.1, Spec.apply
            (DataProcessing.colMin c.2,
              DataProcessing.colMax c.2 - DataProcessing.colMin c.2) c.2)) := rfl

/-- C2: the compress-time latent sizing (helper.py:170) equals
floor(n_features / compression_ratio), coincides with the spec's
derive-time formula, and is a pure function of its two inputs. -/
theorem c2_latent_width_matches_spec (n : ℕ) (r : ℚ) (hn : 0 < n) (hr : 0 < r) :
    Helper.compress_latent_space_size n r = Spec.latent_width n r ∧
    Helper.compress_latent_space_size n r = ⌊(n : ℚ) / r⌋ := ⟨rfl, rfl⟩

/-- C2 witness: ten columns at ratio two give latent width five on both
the compress-time and the derive-time computation. -/
theorem c2_latent_width_matches_spec_witness :
    (Helper.compress_latent_space_size 10 2 = Spec.latent_width 10 2 ∧
      Helper.compress_latent_space_size 10 2 = ⌊(10 : ℚ) / 2⌋) ∧
    Helper.compress_latent_space_size 10 2 = 5 :=
  ⟨c2_latent_width_matches_spec 10 2 (by norm_num) (by norm_num),
    by norm_num [Helper.compress_latent_space_size]⟩

/-- C3: a batch with non-finite loss is silently accumulated — fit keeps
iterating over the remaining batches, returns normally, and reports a
non-finite epoch loss; validate behaves the same; no DivergenceError is
ever produced. -/
theorem c3_nonfinite_loss_silently_accumulated :
    Training.fit (fun _ _ _ => Training.Val.nan) (fun p _ => p) (1 / 1000) []
        [[(1:ℚ)], [(2:ℚ)]]
      = Except.ok ([], Training.Val.nan) ∧
    (Training.validate (fun _ _ _ => Training.Val.nan) (1 / 1000) [] [[(1:ℚ)]]).2
      = Training.Val.nan := ⟨rfl, rfl⟩

/-- C4: normalizing a dataset and renormalizing with the parameters
fitted from that same dataset restores it exactly (so certainly within
floating-point tolerance), and every value of a zero-range column maps
back to the column's true minimum; the degenerate branch never divides. -/
theorem c4_normalize_renormalize_roundtrip (d : Dataset) :
    Helper.renormalize ((Helper.normalize d).map Prod.snd)
      ((DataProcessing.find_minmax d).map Prod.fst)
      ((DataProcessing.find_minmax d).map Prod.snd) = d.map Prod.snd ∧
    ∀ c ∈ d, DataProcessing.colMax c.2 - DataProcessing.colMin c.2 = 0 →
      (DataProcessing.normalize c.2).map
        (fun v => v * (DataProcessing.colMax c.2 - DataProcessing.colMin c.2) +
          DataProcessing.colMin c.2)
        = c.2.map (fun _ => DataProcessing.colMin c.2) := by
  constructor
  · induction d with
    | nil => rfl
    | cons c cs ih =>
        have hcol := normalize_col_roundtrip c.2
        simp only [Helper.normalize, Helper.renormalize, DataProcessing.find_minmax,
          List.map_cons, DataProcessing.renormalize_func, List.cons.injEq] at ih ⊢
        exact ⟨hcol, ih⟩
  · intro c _ hr
    rw [hr]
    simp [DataProcessing.normalize, hr, List.map_map, Function.comp]

/-- C4 witness: on a dataset with a constant column and a varying column,
the round trip restores both columns and the constant column maps back to
its minimum. -/
theorem c4_normalize_renormalize_roundtrip_witness :
    Helper.renormalize ((Helper.normalize sampleDataset).map Prod.snd)
      ((DataProcessing.find_minmax sampleDataset).map Prod.fst)
      ((DataProcessing.find_minmax sampleDataset).map Prod.snd)
      = sampleDataset.map Prod.snd ∧
    (DataProcessing.normalize [(2:ℚ), 2]).map
      (fun v => v * (DataProcessing.colMax [(2:ℚ), 2] - DataProcessing.colMin [(2:ℚ), 2]) +
        DataProcessing.colMin [(2:ℚ), 2])
      = [(2:ℚ), 2].map (fun _ => DataProcessing.colMin [(2:ℚ), 2]) :=
  ⟨(c4_normalize_renormalize_roundtrip sampleDataset).1,
    (c4_normalize_renormalize_roundtrip sampleDataset).2 ("a", [2, 2])
      (by simp [sampleDataset])
      (by norm_num [DataProcessing.colMax, DataProcessing.colMin, List.foldl])⟩

/-- C5: training.train crashes with NameError during its first epoch (the
appended name `mse_loss_fit1` is undefined) directly after recording the
first train and validation losses; it never finishes an epoch loop nor
returns a (trained model, loss log) pair. -/
theorem c5_train_raises_name_error_first_epoch :
    Training.train cfgDefault (fun _ => (1:ℚ)) (fun _ => (2:ℚ))
      = ⟨some PyError.nameError, [1], [2], 0⟩ := rfl

/-- C6: with early stopping enabled, patience 0 and a constant validation
loss, the spec's stopping policy would signal stop at its second
observation — yet training.train raises NameError in epoch 1 before the
policy observes anything, so the early-stopping branch at
training.py:137-140 never runs and can never terminate the loop. -/
theorem c6_early_stopping_branch_unreachable :
    (Training.EarlyStopping.run 0 0 [1, 1]).early_stop = true ∧
    Training.train cfgEager (fun _ => (1:ℚ)) (fun _ => (1:ℚ))
      = ⟨some PyError.nameError, [1], [1], 0⟩ := by
  constructor
  · norm_num [Training.EarlyStopping.run, Training.EarlyStopping.start,
      Training.EarlyStopping.observe, List.foldl]
  · rfl

/-- Folding the validate accumulator never changes the weight component. -/
theorem validate_foldl_fst (lossOf : Training.LossFn) (rp : ℚ) (batches : List (List ℚ)) :
    ∀ p acc, (batches.foldl
      (fun s b => (s.1, Training.Val.add s.2 (Training.validateBatchLoss lossOf s.1 b rp)))
      (p, acc)).1 = p := by
  induction batches with
  | nil => intro p _; rfl
  | cons b bs ih => intro p acc; exact ih p _

/-- C7: validate returns the model parameters unchanged, and its
per-batch loss computation is the very same function — same opaque
model.loss, same regularization weight — as the fit phase's. -/
theorem c7_validate_preserves_params_same_loss (lossOf : Training.LossFn) (reg_param : ℚ)
    (p : Training.Params) (batches : List (List ℚ)) :
    (Training.validate lossOf reg_param p batches).1 = p ∧
    ∀ q b, Training.validateBatchLoss lossOf q b reg_param
      = Training.fitBatchLoss lossOf q b reg_param :=
  ⟨validate_foldl_fst lossOf reg_param batches p (Training.Val.fin 0), fun _ _ => rfl⟩

/-- C8 counterexample: helper.process hands back the caller's config with
`cleared_col_names` reassigned, so the config after the call differs from
the config before it. -/
theorem c8_process_mutates_config_cex :
    (Helper.process [("a", [(0:ℚ), 1])] cfgDefault).config ≠ cfgDefault := by
  intro h
  have h1 : (Helper.process [("a", [(0:ℚ), 1])] cfgDefault).config.cleared_col_names
      = some ["a"] := rfl
  rw [h] at h1
  exact Option.noConfusion h1

/-- C8 amended: process and compress each assign the derived column list
to the caller's config field `cleared_col_names` — the config itself is
the mutated carrier, there is no separate run-context object — and every
other config field is left unchanged. -/
theorem c8_pipeline_mutates_only_cleared_col_names (df : Dataset)
    (s : DataProcessing.StoredModel) (c : Config) :
    (Helper.process df c).config
      = { c with cleared_col_names := some (DataProcessing.get_columns df) } ∧
    (Helper.compress df s c).config
      = { c with cleared_col_names := some (DataProcessing.get_columns df) } := by
  refine ⟨rfl, ?_⟩
  cases hL : DataProcessing.load_model s (DataProcessing.get_columns df).length
      (Helper.compress_latent_space_size (DataProcessing.get_columns df).length
        c.compression_ratio).toNat with
  | error e => simp [Helper.compress, hL]
  | ok m => simp [Helper.compress, hL]

/-- C9 counterexample: a latent matrix of width 3 against stored weights
implying z_dim 2 — decompress instantiates the model with z_dim 3 taken
from the data, and the failure surfaces as an architecture mismatch
inside model loading, not as a ShapeError comparing the latent width with
a model's z_dim. -/
theorem c9_arch_mismatch_not_shape_error_cex :
    Helper.decompress smWide [[(1:ℚ), 2, 3]] cfgDefault
      = Except.error PyError.archMismatch ∧
    Helper.decompress smWide [[(1:ℚ), 2, 3]] cfgDefault
      ≠ Except.error PyError.shapeError := by
  refine ⟨rfl, ?_⟩
  have h1 : Helper.decompress smWide [[(1:ℚ), 2, 3]] cfgDefault
      = Except.error PyError.archMismatch := rfl
  rw [h1]
  intro h
  exact absurd (Except.error.inj h) (by decide)

/-- C9 amended: decompress sizes the model from its inputs — z_dim as the
latent width of the data, n_features as the length of the last persisted
weight entry; a latent width that disagrees with the stored encoder width
fails as an architecture mismatch inside load_model (no ShapeError check
exists), and on success every output row has width n_features. -/
theorem c9_decompress_arch_and_output_width (s : DataProcessing.StoredModel)
    (data : List (List ℚ)) (c : Config) (hne : data ≠ []) :
    (Helper.decompress_latent_space_size data ≠ s.enc_z_dim →
      Helper.decompress s data c = Except.error PyError.archMismatch) ∧
    ∀ out, Helper.decompress s data c = Except.ok out →
      out.length = data.length ∧
        ∀ row ∈ out, row.length = DataProcessing.stored_n_features s := by
  cases data with
  | nil => exact absurd rfl hne
  | cons r0 rest =>
      constructor
      · intro hz
        have hlm : DataProcessing.load_model s (Helper.decompress_number_of_columns s)
            (Helper.decompress_latent_space_size (r0 :: rest))
            = Except.error PyError.archMismatch := by
          unfold DataProcessing.load_model
          rw [if_neg]
          intro hcond
          exact hz hcond.2
        show (match DataProcessing.load_model s (Helper.decompress_number_of_columns s)
                (Helper.decompress_latent_space_size (r0 :: rest)) with
              | Except.error e => Except.error e
              | Except.ok model => Except.ok ((r0 :: rest).map model.decode))
            = Except.error PyError.archMismatch
        rw [hlm]
      · intro out hout
        have hout' : (match DataProcessing.load_model s
                (Helper.decompress_number_of_columns s)
                (Helper.decompress_latent_space_size (r0 :: rest)) with
              | Except.error e => Except.error e
              | Except.ok model => Except.ok ((r0 :: rest).map model.decode))
            = Except.ok out := hout
        cases hL : DataProcessing.load_model s (Helper.decompress_number_of_columns s)
            (Helper.decompress_latent_space_size (r0 :: rest)) with
        | error e => rw [hL] at hout'; exact Except.noConfusion hout'
        | ok m =>
            rw [hL] at hout'
            have hmap : (r0 :: rest).map m.decode = out := Except.ok.inj hout'
            have hm : m.n_features = DataProcessing.stored_n_features s := by
              unfold DataProcessing.load_model at hL
              split at hL
              · rename_i hcond
                rw [← Except.ok.inj hL]
                exact hcond.1
              · exact Except.noConfusion hL
            constructor
            · rw [← hmap]
              simp
            · intro row hrow
              rw [← hmap] at hrow
              rcases List.mem_map.mp hrow with ⟨x, _, hdec⟩
              rw [← hdec]
              simp [DataProcessing.Model.decode, hm]

/-- C9 witness: a width-1 latent row against stored weights expecting
width 2 fails as an architecture mismatch, and a matching width-1 latent
row decodes to rows of the stored feature width. -/
theorem c9_decompress_arch_and_output_width_witness :
    Helper.decompress smNarrow [[(5:ℚ)]] cfgDefault
      = Except.error PyError.archMismatch ∧
    (([[(5:ℚ), 5]] : List (List ℚ)).length = ([[(5:ℚ)]] : List (List ℚ)).length ∧
      ∀ row ∈ ([[(5:ℚ), 5]] : List (List ℚ)),
        row.length = DataProcessing.stored_n_features smTiny) :=
  ⟨(c9_decompress_arch_and_output_width smNarrow [[(5:ℚ)]] cfgDefault (by simp)).1
      (by decide),
    (c9_decompress_arch_and_output_width smTiny [[(5:ℚ)]] cfgDefault (by simp)).2
      [[(5:ℚ), 5]] rfl⟩

/-- C10: decompress instantiates the model with z_dim equal to the length
of the first row of the loaded input and n_features equal to the length
of the last entry of the stored weight dictionary, and its result is
unchanged under any change of the config's compression ratio. -/
theorem c10_decompress_sizes_from_data_and_weights (s : DataProcessing.StoredModel)
    (row0 : List ℚ) (rest : List (List ℚ)) (c : Config) (r : ℚ) :
    Helper.decompress s (row0 :: rest) c
      = (match DataProcessing.load_model s ((s.dict.getLastD ("", [])).2).length
            row0.length with
         | Except.error e => Except.error e
         | Except.ok m => Except.ok ((row0 :: rest).map m.decode)) ∧
    Helper.decompress s (row0 :: rest) { c with compression_ratio := r }
      = Helper.decompress s (row0 :: rest) c := ⟨rfl, rfl⟩
